import Mathlib

/-!
Verification of the yumiai client core (`src/services/riko.ts`):
the `RikoService` connection manager and the `Avatar3D` animation
component (blink scheduler, mouth animator, mesh classifier).

Numeric code is embedded over `ℚ` (exact arithmetic); timestamps are
rationals of milliseconds.  Effectful code (WebSocket handlers, timers,
React state updates) is embedded as explicit state-passing functions,
one per handler, applied in the order the runtime would run them.
-/

namespace Yumiai

/-! ## Connection manager: reconnection policy

Embeds `RikoService.attemptReconnect`:

  if (this.reconnectAttempts < this.maxReconnectAttempts) {
    this.reconnectAttempts++;
    const delay = Math.min(1000 * Math.pow(2, this.reconnectAttempts), 30000);
    setTimeout(() => this.initializeConnection(), delay);
  } else { ... no retry ... }

The function returns the updated attempt counter together with the
scheduled delay in ms, or `none` when no reconnection is scheduled. -/

def maxReconnectAttempts : Nat := 5

def attemptReconnect (reconnectAttempts : Nat) : Option (Nat × Nat) :=
  if reconnectAttempts < maxReconnectAttempts then
    let attempts := reconnectAttempts + 1
    some (attempts, min (1000 * 2 ^ attempts) 30000)
  else
    none

/-! ## Connection manager: HTTP fallback

Embeds `RikoService.sendHTTPMessage`.  A `fetch` outcome is either a
transport error or an HTTP response with a status code and an optional
parsed JSON body (`none` when `response.json()` fails).  `response.ok`
is true exactly for statuses 200..299.  The returned pair counts the
POST requests made (the body contains a single non-looped `fetch`) and
gives the resolved value. -/

structure RikoResponse where
  text : String
  emotion : Option String := none
  audioUrl : Option String := none
deriving DecidableEq

inductive FetchOutcome
  | transportError
  | httpResponse (status : Nat) (jsonBody : Option RikoResponse)
deriving DecidableEq

def responseOk (status : Nat) : Bool :=
  decide (200 ≤ status ∧ status < 300)

def sendHTTPMessage : FetchOutcome → Nat × Option RikoResponse
  | .transportError => (1, none)
  | .httpResponse status jsonBody =>
    (1, if responseOk status then
          match jsonBody with
          | some data => some data
          | none => none
        else none)

/-! ## Connection manager: pending request for the WebSocket send path

Embeds the promise executor of `RikoService.sendMessage` when the
channel is open:

  const timeout = setTimeout(() => { resolve(null); }, 10000);
  const handleResponse = (data) => {
    clearTimeout(timeout);
    this.off('text', handleResponse);
    resolve({ text: data, emotion: 'neutral' });
  };
  this.on('text', handleResponse);

`result` is `none` while unresolved and `some v` once resolved with `v`
(a promise resolves at most once; it is never rejected — the executor
only ever calls `resolve`).  `listenerRegistered` tracks whether
`handleResponse` is still in the `'text'` listener set, and
`timeoutActive` whether the 10 s timer is still pending. -/

structure PendingRequest where
  result : Option (Option RikoResponse)
  listenerRegistered : Bool
  timeoutActive : Bool
deriving DecidableEq

def initPending : PendingRequest :=
  { result := none, listenerRegistered := true, timeoutActive := true }

def resolveOnce (cur : Option (Option RikoResponse)) (v : Option RikoResponse) :
    Option (Option RikoResponse) :=
  match cur with
  | some r => some r
  | none => some v

def timeoutFires (p : PendingRequest) : PendingRequest :=
  if p.timeoutActive then
    { p with result := resolveOnce p.result none, timeoutActive := false }
  else p

def textEventArrives (data : String) (p : PendingRequest) : PendingRequest :=
  if p.listenerRegistered then
    { result := resolveOnce p.result (some { text := data, emotion := some "neutral" }),
      listenerRegistered := false,
      timeoutActive := false }
  else p

/-! ## Connection manager: mouth-animation trigger and inbound dispatch

Embeds `RikoService.triggerMouthAnimation` and `RikoService.handleMessage`.
`registered` says whether `window.__triggerMouthAnimation` is a function.
The effects of a trigger call are the arguments passed to the global
callable immediately, plus the (delayMs, argument) timers it sets. -/

structure TriggerEffects where
  immediate : List ℚ
  scheduled : List (ℚ × ℚ)
deriving DecidableEq

def triggerMouthAnimation (registered : Bool) (intensity : ℚ) : TriggerEffects :=
  { immediate := if registered then [intensity] else []
    scheduled := [(2000, 0)] }

inductive Inbound
  | textResponse (content : String)
  | audioResponse (content : String)
  | emotion (content : String)
deriving DecidableEq

def handleMessage (registered : Bool) :
    Inbound → List (String × String) × Option TriggerEffects
  | .textResponse c => ([("text", c)], some (triggerMouthAnimation registered (1/2)))
  | .audioResponse c => ([("audio", c)], some (triggerMouthAnimation registered (4/5)))
  | .emotion c => ([("emotion", c)], none)

/-! ## Connection manager: service lifecycle

State-passing embedding of the `RikoService` fields touched by
`disconnect`, the `ws.onclose` handler, the reconnect timer
(`initializeConnection`) and the `ws.onopen` handler.  `ws` abstracts
`this.ws` to its `readyState`; `listeners` is the listener map flattened
to (event name, callback id) registrations; `pendingCloseCallbacks`
counts close events queued for sockets whose `onclose` has not yet run;
`scheduledReconnects` counts pending `setTimeout(initializeConnection)`
timers. -/

inductive ReadyState
  | connecting
  | opened
  | closedState
deriving DecidableEq

structure ServiceState where
  ws : Option ReadyState
  listeners : List (String × Nat)
  reconnectAttempts : Nat
  pendingCloseCallbacks : Nat
  scheduledReconnects : Nat
deriving DecidableEq

/-- `disconnect()`: `if (this.ws) { this.ws.close(); this.ws = null; }
this.listeners.clear();` — closing the socket queues its close event, so
its `onclose` handler will still run. -/
def disconnect (s : ServiceState) : ServiceState :=
  if s.ws.isSome then
    { s with ws := none, listeners := [],
             pendingCloseCallbacks := s.pendingCloseCallbacks + 1 }
  else
    { s with listeners := [] }

/-- `emit(event, data)` invokes exactly the callbacks registered for
`event`; this returns their ids. -/
def emitTargets (s : ServiceState) (event : String) : List Nat :=
  (s.listeners.filter (fun p => p.1 = event)).map (fun p => p.2)

/-- The `ws.onclose` handler: emits `connection: disconnected` to the
current listeners, then `attemptReconnect()` increments the counter and
schedules `initializeConnection` when under the cap. -/
def onCloseFires (s : ServiceState) : ServiceState :=
  let s' := { s with pendingCloseCallbacks := s.pendingCloseCallbacks - 1 }
  if s'.reconnectAttempts < maxReconnectAttempts then
    { s' with reconnectAttempts := s'.reconnectAttempts + 1,
              scheduledReconnects := s'.scheduledReconnects + 1 }
  else s'

/-- A reconnect timer firing runs `initializeConnection()`, which assigns
`this.ws = new WebSocket(...)` (initially connecting). -/
def reconnectTimerFires (s : ServiceState) : ServiceState :=
  { s with ws := some .connecting,
           scheduledReconnects := s.scheduledReconnects - 1 }

/-- The `ws.onopen` handler: the socket is now open and the attempt
counter resets to 0. -/
def onOpenFires (s : ServiceState) : ServiceState :=
  { s with ws := some .opened, reconnectAttempts := 0 }

/-- The branch test of `sendMessage`:
`this.ws && this.ws.readyState === WebSocket.OPEN` selects the WebSocket
path; otherwise the HTTP fallback runs. -/
def sendMessageUsesWS (s : ServiceState) : Bool :=
  s.ws = some .opened

/-! ## Mouth animator (`Avatar3D`, forwardRef variant)

Embeds the `mouthAnimationRef` record, the external trigger

  const triggerMouthMovement = (duration) => {
    mouthAnim.isSpeaking = true;
    mouthAnim.speakEndTime = performance.now() + duration;
    mouthAnim.targetIntensity = 0.8;
  };

and the per-frame mouth update inside `useFrame`:

  if (mouthAnim.isSpeaking && now > mouthAnim.speakEndTime) {
    mouthAnim.isSpeaking = false;
    mouthAnim.targetIntensity = 0;
  }
  mouthAnim.currentIntensity +=
    (mouthAnim.targetIntensity - mouthAnim.currentIntensity) * 0.1;

Times are rationals of ms; 0.8 is 4/5 and 0.1 is 1/10. -/

structure MouthState where
  isSpeaking : Bool
  speakEndTime : ℚ
  currentIntensity : ℚ
  targetIntensity : ℚ
deriving DecidableEq

def triggerMouthMovement (now duration : ℚ) (s : MouthState) : MouthState :=
  { s with isSpeaking := true,
           speakEndTime := now + duration,
           targetIntensity := 4/5 }

/-- `speak` is a source-level alias for `triggerMouthMovement`. -/
def speak (now duration : ℚ) (s : MouthState) : MouthState :=
  triggerMouthMovement now duration s

/-- One smoothing tick:
`currentIntensity += (targetIntensity - currentIntensity) * 0.1`
(identical in both `Avatar3D` variants). -/
def intensityStep (current target : ℚ) : ℚ :=
  current + (target - current) * (1/10)

def mouthFrameAdvance (now : ℚ) (s : MouthState) : MouthState :=
  let s1 := if s.isSpeaking ∧ s.speakEndTime < now then
              { s with isSpeaking := false, targetIntensity := 0 }
            else s
  { s1 with currentIntensity := intensityStep s1.currentIntensity s1.targetIntensity }

/-- A sequence of per-frame advances at the given timestamps. -/
def mouthAdvances (ts : List ℚ) (s : MouthState) : MouthState :=
  ts.foldl (fun s t => mouthFrameAdvance t s) s

/-! ## Blink scheduler

Embeds the blink section of `useFrame` (both `Avatar3D` variants share
everything except the `blinkAmount` formula):

  if (!blinkState.isBlinking && (now - blinkState.lastBlinkTime) > blinkState.blinkInterval) {
    blinkState.isBlinking = true;
    blinkState.blinkStartTime = now;
    blinkState.lastBlinkTime = now;
  }
  if (blinkState.isBlinking) {
    const elapsed = now - blinkState.blinkStartTime;
    const progress = Math.min(elapsed / blinkState.blinkDuration, 1);
    const blinkAmount = ...;                      // per-variant formula
    eyeMeshes.forEach((mesh, i) =>
      mesh.scale.y = originalEyeScales[i].y * Math.max(0.1, blinkAmount));
    if (progress >= 1) {
      blinkState.isBlinking = false;
      eyeMeshes.forEach((mesh, i) => mesh.scale.copy(originalEyeScales[i]));
    }
  }

An `EyeEntry` pairs a mesh's live scale with its captured rest scale. -/

structure Vec3 where
  x : ℚ
  y : ℚ
  z : ℚ
deriving DecidableEq

structure EyeEntry where
  scale : Vec3
  rest : Vec3
deriving DecidableEq

structure BlinkState where
  isBlinking : Bool
  lastBlinkTime : ℚ
  blinkStartTime : ℚ
  blinkDuration : ℚ
  blinkInterval : ℚ
deriving DecidableEq

/-- First variant: `progress < 0.5 ? 1 - (progress * 2) : (progress - 0.5) * 2`. -/
def blinkAmount1 (progress : ℚ) : ℚ :=
  if progress < 1/2 then 1 - progress * 2 else (progress - 1/2) * 2

/-- Second variant:
`progress < 0.5 ? 1 - (progress * 2 * 0.9) : 0.1 + ((progress - 0.5) * 2 * 0.9)`. -/
def blinkAmount2 (progress : ℚ) : ℚ :=
  if progress < 1/2 then 1 - progress * 2 * (9/10)
  else 1/10 + (progress - 1/2) * 2 * (9/10)

/-- The shared blink frame step, parameterized by the variant's
`blinkAmount` formula. -/
def blinkFrameWith (amt : ℚ → ℚ) (now : ℚ) (bs : BlinkState)
    (eyes : List EyeEntry) : BlinkState × List EyeEntry :=
  let bs := if ¬ bs.isBlinking ∧ bs.blinkInterval < now - bs.lastBlinkTime then
              { bs with isBlinking := true, blinkStartTime := now, lastBlinkTime := now }
            else bs
  if bs.isBlinking then
    let elapsed := now - bs.blinkStartTime
    let progress := min (elapsed / bs.blinkDuration) 1
    let a := amt progress
    let eyes := eyes.map fun e =>
      { e with scale := { e.scale with y := e.rest.y * max (1/10) a } }
    if 1 ≤ progress then
      ({ bs with isBlinking := false }, eyes.map fun e => { e with scale := e.rest })
    else (bs, eyes)
  else (bs, eyes)

def blinkFrame1 : ℚ → BlinkState → List EyeEntry → BlinkState × List EyeEntry :=
  blinkFrameWith blinkAmount1

def blinkFrame2 : ℚ → BlinkState → List EyeEntry → BlinkState × List EyeEntry :=
  blinkFrameWith blinkAmount2

/-! ## Mesh classifier

Embeds the classification `useEffect` of `Avatar3D`: name matching with
JS `String.prototype.toLowerCase`/`includes`, the heuristic eye fallback,
and the mouth-mesh branch.  A `Mesh` carries the fields the classifier
reads; `bboxSize` is the bounding-box size vector after
`computeBoundingBox`, `worldPos` the result of `getWorldPosition`. -/

structure Mesh where
  name : String
  hasGeometry : Bool
  hasBoundingBox : Bool
  bboxSize : Vec3
  worldPos : Vec3
  scale : Vec3
deriving DecidableEq

/-- `pat` occurs at the start of `l`, character by character. -/
def startsWithList : List Char → List Char → Bool
  | [], _ => true
  | _ :: _, [] => false
  | p :: ps, c :: cs => p == c && startsWithList ps cs

/-- JS `String.prototype.includes`: `pat` occurs contiguously. -/
def includesList (pat : List Char) : List Char → Bool
  | [] => startsWithList pat []
  | c :: cs => startsWithList pat (c :: cs) || includesList pat cs

/-- `child.name.toLowerCase()`, character by character (the mesh names in
scope are ASCII, where JS `toLowerCase` agrees with `Char.toLower`). -/
def toLowerName (rawName : String) : List Char :=
  rawName.toList.map Char.toLower

/-- `name.includes('eye') || name.includes('eyelid') || name.includes('lid')`
on the lower-cased mesh name. -/
def isEyeName (rawName : String) : Bool :=
  let name := toLowerName rawName
  includesList "eye".toList name || includesList "eyelid".toList name ||
    includesList "lid".toList name

/-- `name.includes('mouth') || name.includes('lip') || name.includes('jaw')`
on the lower-cased mesh name. -/
def isMouthName (rawName : String) : Bool :=
  let name := toLowerName rawName
  includesList "mouth".toList name || includesList "lip".toList name ||
    includesList "jaw".toList name

/-- The eye meshes found by name: the traversal pushes every mesh whose
lower-cased name matches. -/
def nameMatchedEyes (meshes : List Mesh) : List Mesh :=
  meshes.filter (fun m => isEyeName m.name)

def sqLength (v : Vec3) : ℚ :=
  v.x * v.x + v.y * v.y + v.z * v.z

/-- The heuristic acceptance test: the `geometry && geometry.boundingBox`
guard, `isSmallEnough = size.length() < 0.5` (stated on the squared
Euclidean length, `sqLength < 0.25`, which is equivalent for nonnegative
lengths) and `isNearFace = worldPos.y > 0 && |worldPos.x| < 1`. -/
def isCandidateEye (m : Mesh) : Prop :=
  m.hasGeometry ∧ m.hasBoundingBox ∧
  sqLength m.bboxSize < 1/4 ∧ 0 < m.worldPos.y ∧ |m.worldPos.x| < 1

instance (m : Mesh) : Decidable (isCandidateEye m) := by
  unfold isCandidateEye
  infer_instance

/-- The heuristic traversal, accumulating into `foundEyes` (named `acc`):
a mesh is pushed when it passes the candidate test and
`foundEyes.length < 10` still holds. -/
def heuristicEyesAux (acc : List Mesh) (meshes : List Mesh) : List Mesh :=
  meshes.foldl
    (fun acc m => if isCandidateEye m ∧ acc.length < 10 then acc ++ [m] else acc)
    acc

/-- The heuristic fallback starts from the empty `foundEyes` (it only runs
when name matching found nothing). -/
def heuristicEyes (meshes : List Mesh) : List Mesh :=
  heuristicEyesAux [] meshes

/-- `if (foundEyes.length === 0)` the heuristic traversal runs; otherwise
the name-matched list stands. -/
def findEyes (meshes : List Mesh) : List Mesh :=
  let byName := nameMatchedEyes meshes
  if byName.length = 0 then heuristicEyes meshes else byName

/-- One run of the classification effect's mouth branch (forwardRef
variant):

  if (name.includes('mouth') || name.includes('lip') || name.includes('jaw')) {
    if (!mouthMesh) {
      setMouthMesh(child);
      setOriginalMouthScale(child.scale.clone());
    }
  }

`mouthMeshAtRender` is the value of the `mouthMesh` React state captured
by the effect closure.  `setMouthMesh` during the run does not change the
captured value, so the `if (!mouthMesh)` guard reads this stale value for
the whole traversal, and the state committed after the run is the
argument of the last `setMouthMesh` call (paired with the matching
`setOriginalMouthScale` rest-scale capture), or stays unset if no call
was made. -/
def classifyMouthRun (mouthMeshAtRender : Option Mesh) (meshes : List Mesh) :
    Option (Mesh × Vec3) :=
  meshes.foldl
    (fun pending m =>
      if isMouthName m.name ∧ mouthMeshAtRender = none then some (m, m.scale)
      else pending)
    none

end Yumiai

namespace Yumiai

/-- Claim C1: on each channel close the attempt counter is incremented before
the delay `min(1000 * 2^attempt, 30000)` ms is computed, so attempts 1..5 are
scheduled with delays 2000, 4000, 8000, 16000 and 30000 ms, and once the
counter has reached 5 no sixth reconnection attempt is ever scheduled. -/
theorem reconnect_backoff_delays :
    (attemptReconnect 0 = some (1, 2000) ∧
     attemptReconnect 1 = some (2, 4000) ∧
     attemptReconnect 2 = some (3, 8000) ∧
     attemptReconnect 3 = some (4, 16000) ∧
     attemptReconnect 4 = some (5, 30000)) ∧
    ∀ n, maxReconnectAttempts ≤ n → attemptReconnect n = none := by
  refine ⟨by decide, ?_⟩
  intro n hn
  simp [attemptReconnect, Nat.not_lt.mpr hn]

/-- Witness for C1: the theorem applied at counter value 7. -/
theorem reconnect_backoff_delays_witness :
    maxReconnectAttempts ≤ 7 ∧ attemptReconnect 7 = none :=
  ⟨by decide, reconnect_backoff_delays.2 7 (by decide)⟩

/-- Counterexample for C2: when the 10 s deadline fires first, the promise
does resolve with `null`, but the one-shot `'text'` listener registered for
the call is NOT deregistered — the timeout callback only calls
`resolve(null)`; `this.off('text', handleResponse)` runs only inside
`handleResponse` itself.  So the claim's "the listener is deregistered"
on deadline expiry is false. -/
theorem sendMessage_timeout_keeps_listener :
    (timeoutFires initPending).result = some none ∧
    (timeoutFires initPending).listenerRegistered = true := by
  decide

/-- Claim C2 (amended): while the channel is open, if the deadline fires
first the promise resolves with `null` (never rejects) but the one-shot
listener stays registered; it is removed only when a later matching `'text'`
event arrives, which no longer changes the already-resolved value.  If a
matching inbound event arrives before the deadline, the promise resolves
with the parsed response `{text: data, emotion: 'neutral'}` and the
listener is deregistered. -/
theorem sendMessage_resolution (d : String) :
    (timeoutFires initPending).result = some none ∧
    (timeoutFires initPending).listenerRegistered = true ∧
    (textEventArrives d (timeoutFires initPending)).listenerRegistered = false ∧
    (textEventArrives d (timeoutFires initPending)).result = some none ∧
    (textEventArrives d initPending).result =
      some (some { text := d, emotion := some "neutral" }) ∧
    (textEventArrives d initPending).listenerRegistered = false := by
  refine ⟨by decide, by decide, ?_, ?_, ?_, ?_⟩ <;>
    simp [textEventArrives, timeoutFires, initPending, resolveOnce]

/-- Claim C3: with the channel closed, `sendMessage` performs exactly one
HTTP POST to the `/chat` fallback; a 2xx response with a parseable JSON
body resolves with the parsed body, and any non-success status or
transport error resolves with `null`, never rejecting. -/
theorem sendHTTPMessage_fallback (status : Nat) (body : Option RikoResponse)
    (r : RikoResponse) :
    (∀ outcome, (sendHTTPMessage outcome).1 = 1) ∧
    sendHTTPMessage .transportError = (1, none) ∧
    (200 ≤ status → status < 300 →
      sendHTTPMessage (.httpResponse status (some r)) = (1, some r)) ∧
    (¬ (200 ≤ status ∧ status < 300) →
      sendHTTPMessage (.httpResponse status body) = (1, none)) := by
  refine ⟨fun outcome => ?_, rfl, fun h1 h2 => ?_, fun h => ?_⟩
  · cases outcome <;> rfl
  · simp [sendHTTPMessage, responseOk, h1, h2]
  · simp [sendHTTPMessage, responseOk, h]

/-- Witness for C3: a mocked 200 response with body `{text := "hi"}`
resolves with that body; a 500 response resolves with `null`. -/
theorem sendHTTPMessage_fallback_witness :
    (200 ≤ 200 ∧ 200 < 300 ∧ ¬ (200 ≤ 500 ∧ 500 < 300)) ∧
    sendHTTPMessage (.httpResponse 200 (some { text := "hi" })) =
      (1, some { text := "hi" }) ∧
    sendHTTPMessage (.httpResponse 500 (some { text := "hi" })) = (1, none) :=
  ⟨by decide,
   (sendHTTPMessage_fallback 200 (some { text := "hi" }) { text := "hi" }).2.2.1
     (by decide) (by decide),
   (sendHTTPMessage_fallback 500 (some { text := "hi" }) { text := "hi" }).2.2.2
     (by decide)⟩

/-- Claim C9: every `triggerMouthAnimation(i)` call — including those made
by `handleMessage` for inbound `text_response` (i = 0.5) and
`audio_response` (i = 0.8) events — invokes the global mouth-trigger
callable with `i` when one is registered (and nothing when none is), and
always schedules exactly one follow-up invocation with argument 0 after a
fixed 2000 ms, forcing the animation back toward silence at most 2000 ms
later regardless of the requested intensity. -/
theorem triggerMouthAnimation_silences (registered : Bool) (i : ℚ) (c : String) :
    (triggerMouthAnimation registered i).scheduled = [(2000, 0)] ∧
    (triggerMouthAnimation true i).immediate = [i] ∧
    (triggerMouthAnimation false i).immediate = [] ∧
    (handleMessage registered (.textResponse c)).2 =
      some (triggerMouthAnimation registered (1/2)) ∧
    (handleMessage registered (.audioResponse c)).2 =
      some (triggerMouthAnimation registered (4/5)) ∧
    (handleMessage registered (.emotion c)).2 = none := by
  refine ⟨rfl, rfl, rfl, rfl, rfl, rfl⟩

/-- Counterexample for C10: "every subsequent `sendMessage` takes the HTTP
fallback path (never the WebSocket path)" is false.  `disconnect()` closes
the socket, whose `onclose` handler then runs `attemptReconnect()`; the
scheduled `initializeConnection` creates a fresh WebSocket, and once it
opens, `sendMessage` takes the WebSocket path again.  Concrete trace from
an open connection with one registered listener. -/
theorem disconnect_not_permanent :
    sendMessageUsesWS
      (onOpenFires (reconnectTimerFires (onCloseFires (disconnect
        { ws := some .opened, listeners := [("text", 0)],
          reconnectAttempts := 0, pendingCloseCallbacks := 0,
          scheduledReconnects := 0 })))) = true := by
  decide

/-- Claim C10 (amended): after `disconnect()` the channel reference is null
and the listener map is empty, so a `sendMessage` issued before any
reconnection completes takes the HTTP fallback path, and no previously
registered callback is ever invoked again (`emit` finds no listeners, and
none of the service's own handlers re-add any); however, the closed
socket's close handler still triggers the automatic reconnection policy,
which can re-establish the channel, after which `sendMessage` uses the
WebSocket path again. -/
theorem disconnect_clears_channel_and_listeners (s : ServiceState) (e : String) :
    (disconnect s).ws = none ∧
    (disconnect s).listeners = [] ∧
    sendMessageUsesWS (disconnect s) = false ∧
    emitTargets (disconnect s) e = [] ∧
    (onCloseFires s).listeners = s.listeners ∧
    (reconnectTimerFires s).listeners = s.listeners ∧
    (onOpenFires s).listeners = s.listeners := by
  have hclose : (onCloseFires s).listeners = s.listeners := by
    unfold onCloseFires
    by_cases hr : s.reconnectAttempts < maxReconnectAttempts <;> simp [hr]
  unfold disconnect reconnectTimerFires onOpenFires sendMessageUsesWS emitTargets
  by_cases h : s.ws.isSome <;> simp [h, hclose]
  have hnone : s.ws = none := Option.not_isSome_iff_eq_none.mp (by simpa using h)
  simp [hnone]

/-- An advance at a time not past the deadline leaves the speaking flag,
the target intensity and the deadline unchanged (only the smoothed
current intensity moves). -/
theorem mouthFrameAdvance_before (now : ℚ) (s : MouthState)
    (h : now ≤ s.speakEndTime) :
    (mouthFrameAdvance now s).isSpeaking = s.isSpeaking ∧
    (mouthFrameAdvance now s).targetIntensity = s.targetIntensity ∧
    (mouthFrameAdvance now s).speakEndTime = s.speakEndTime := by
  have hc : ¬ (s.isSpeaking ∧ s.speakEndTime < now) := by
    rintro ⟨-, hlt⟩
    exact absurd h (not_le.mpr hlt)
  unfold mouthFrameAdvance
  simp [hc]

theorem mouthAdvances_before (ts : List ℚ) (s : MouthState)
    (hts : ∀ t ∈ ts, t ≤ s.speakEndTime) :
    (mouthAdvances ts s).isSpeaking = s.isSpeaking ∧
    (mouthAdvances ts s).targetIntensity = s.targetIntensity ∧
    (mouthAdvances ts s).speakEndTime = s.speakEndTime := by
  induction ts generalizing s with
  | nil => exact ⟨rfl, rfl, rfl⟩
  | cons t ts ih =>
    have ht : t ≤ s.speakEndTime := hts t (List.mem_cons_self t ts)
    obtain ⟨h1, h2, h3⟩ := mouthFrameAdvance_before t s ht
    have hrest : ∀ u ∈ ts, u ≤ (mouthFrameAdvance t s).speakEndTime := by
      intro u hu
      rw [h3]
      exact hts u (List.mem_cons_of_mem t hu)
    obtain ⟨g1, g2, g3⟩ := ih (mouthFrameAdvance t s) hrest
    exact ⟨by rw [show mouthAdvances (t :: ts) s = mouthAdvances ts (mouthFrameAdvance t s) from rfl, g1, h1],
           by rw [show mouthAdvances (t :: ts) s = mouthAdvances ts (mouthFrameAdvance t s) from rfl, g2, h2],
           by rw [show mouthAdvances (t :: ts) s = mouthAdvances ts (mouthFrameAdvance t s) from rfl, g3, h3]⟩

theorem mouthFrameAdvance_after (now : ℚ) (s : MouthState)
    (hs : s.isSpeaking = true) (h : s.speakEndTime < now) :
    (mouthFrameAdvance now s).isSpeaking = false ∧
    (mouthFrameAdvance now s).targetIntensity = 0 := by
  unfold mouthFrameAdvance
  simp [hs, h]

/-- Claim C4: `speak(d)`, i.e. `triggerMouthMovement(d)`, called at `t0`
sets `isSpeaking = true`, `speakEndsAt = t0 + d` and
`targetIntensity = 0.8`; with no further trigger calls, every subsequent
per-frame advance at a time not past `t0 + d` leaves `isSpeaking = true`
and the target at 0.8, and the first advance whose time passes `t0 + d`
sets `isSpeaking = false` and forces the target to 0. -/
theorem speak_deadline_transition (s : MouthState) (t0 d : ℚ) (ts : List ℚ)
    (t' : ℚ) (hts : ∀ t ∈ ts, t ≤ t0 + d) (ht' : t0 + d < t') :
    (speak t0 d s).isSpeaking = true ∧
    (speak t0 d s).speakEndTime = t0 + d ∧
    (speak t0 d s).targetIntensity = 4/5 ∧
    (mouthAdvances ts (speak t0 d s)).isSpeaking = true ∧
    (mouthAdvances ts (speak t0 d s)).targetIntensity = 4/5 ∧
    (mouthFrameAdvance t' (mouthAdvances ts (speak t0 d s))).isSpeaking = false ∧
    (mouthFrameAdvance t' (mouthAdvances ts (speak t0 d s))).targetIntensity = 0 := by
  have hEnd : (speak t0 d s).speakEndTime = t0 + d := rfl
  obtain ⟨a1, a2, a3⟩ := mouthAdvances_before ts (speak t0 d s) (by rw [hEnd]; exact hts)
  have hSpk : (mouthAdvances ts (speak t0 d s)).isSpeaking = true := by
    rw [a1]; rfl
  have hTgt : (mouthAdvances ts (speak t0 d s)).targetIntensity = 4/5 := by
    rw [a2]; rfl
  obtain ⟨b1, b2⟩ := mouthFrameAdvance_after t' (mouthAdvances ts (speak t0 d s))
    hSpk (by rw [a3, hEnd]; exact ht')
  exact ⟨rfl, rfl, rfl, hSpk, hTgt, b1, b2⟩

/-- Witness for C4: `speak(100)` at `t0 = 0`, advances at 30 and 100 ms
(deadline not yet passed), then at 150 ms. -/
theorem speak_deadline_transition_witness :
    ((∀ t ∈ ([30, 100] : List ℚ), t ≤ 0 + 100) ∧ (0 : ℚ) + 100 < 150) ∧
    (mouthFrameAdvance 150 (mouthAdvances [30, 100]
      (speak 0 100 ⟨false, 0, 0, 0⟩))).isSpeaking = false ∧
    (mouthFrameAdvance 150 (mouthAdvances [30, 100]
      (speak 0 100 ⟨false, 0, 0, 0⟩))).targetIntensity = 0 :=
  ⟨⟨by intro t ht; fin_cases ht <;> norm_num, by norm_num⟩,
   (speak_deadline_transition ⟨false, 0, 0, 0⟩ 0 100 [30, 100] 150
      (by intro t ht; fin_cases ht <;> norm_num) (by norm_num)).2.2.2.2.2⟩

/-- Claim C5: each smoothing tick replaces `current` by
`current + (target - current) * 0.1`, so the gap to the fixed target `T`
shrinks by exactly a factor of 0.9 per tick, `current` moves toward `T`
monotonically, and it never crosses to the other side of `T`. -/
theorem intensity_smoothing_convergence (c T : ℚ) :
    intensityStep c T - T = (c - T) * (9/10) ∧
    |intensityStep c T - T| = (9/10) * |c - T| ∧
    (c ≤ T → c ≤ intensityStep c T ∧ intensityStep c T ≤ T) ∧
    (T ≤ c → T ≤ intensityStep c T ∧ intensityStep c T ≤ c) := by
  have h : intensityStep c T - T = (c - T) * (9/10) := by
    unfold intensityStep; ring
  refine ⟨h, ?_, fun hc => ⟨?_, ?_⟩, fun hc => ⟨?_, ?_⟩⟩
  · rw [h, abs_mul, abs_of_pos (show (0:ℚ) < 9/10 by norm_num), mul_comm]
  · unfold intensityStep; nlinarith
  · unfold intensityStep; nlinarith
  · unfold intensityStep; nlinarith
  · unfold intensityStep; nlinarith

/-- Witness for C5: starting below the target (`c = 0`, `T = 1`), one tick
moves the intensity up without passing the target. -/
theorem intensity_smoothing_convergence_witness :
    ((0 : ℚ) ≤ 1) ∧ ((0 : ℚ) ≤ intensityStep 0 1 ∧ intensityStep 0 1 ≤ 1) :=
  ⟨by norm_num, (intensity_smoothing_convergence 0 1).2.2.1 (by norm_num)⟩

theorem blinkAmount1_le_one (p : ℚ) (h0 : 0 ≤ p) (h1 : p ≤ 1) :
    blinkAmount1 p ≤ 1 := by
  unfold blinkAmount1
  split_ifs with h <;> nlinarith

theorem blinkAmount2_le_one (p : ℚ) (h0 : 0 ≤ p) (h1 : p ≤ 1) :
    blinkAmount2 p ≤ 1 := by
  unfold blinkAmount2
  split_ifs with h <;> nlinarith

/-- The blink frame step, during a blink, at any advance not before the
blink's start: every eye Y-scale lands in `[0.1 * restY, restY]`;
strictly before `blinkStartTime + blinkDuration` the state stays
`Blinking`; at any advance at or past that deadline the clamped progress
reaches 1, the state returns to idle and every full rest scale vector is
restored exactly. -/
theorem blinkFrameWith_envelope (amt : ℚ → ℚ)
    (hamt : ∀ p, 0 ≤ p → p ≤ 1 → amt p ≤ 1)
    (now : ℚ) (bs : BlinkState) (eyes : List EyeEntry)
    (hblink : bs.isBlinking = true) (hdur : 0 < bs.blinkDuration)
    (hlo : bs.blinkStartTime ≤ now)
    (hrest : ∀ e ∈ eyes, 0 ≤ e.rest.y) :
    (∀ e ∈ (blinkFrameWith amt now bs eyes).2,
        1/10 * e.rest.y ≤ e.scale.y ∧ e.scale.y ≤ e.rest.y) ∧
    (now < bs.blinkStartTime + bs.blinkDuration →
        (blinkFrameWith amt now bs eyes).1.isBlinking = true) ∧
    (bs.blinkStartTime + bs.blinkDuration ≤ now →
        (blinkFrameWith amt now bs eyes).1.isBlinking = false ∧
        ∀ e ∈ (blinkFrameWith amt now bs eyes).2, e.scale = e.rest) := by
  have hne : bs.blinkDuration ≠ 0 := ne_of_gt hdur
  have hp0 : 0 ≤ min ((now - bs.blinkStartTime) / bs.blinkDuration) 1 :=
    le_min (div_nonneg (by linarith) hdur.le) zero_le_one
  have hp1 : min ((now - bs.blinkStartTime) / bs.blinkDuration) 1 ≤ 1 :=
    min_le_right _ _
  have ha : amt (min ((now - bs.blinkStartTime) / bs.blinkDuration) 1) ≤ 1 :=
    hamt _ hp0 hp1
  have hclampLo : (1/10 : ℚ) ≤
      max (1/10) (amt (min ((now - bs.blinkStartTime) / bs.blinkDuration) 1)) :=
    le_max_left _ _
  have hclampHi :
      max (1/10 : ℚ) (amt (min ((now - bs.blinkStartTime) / bs.blinkDuration) 1)) ≤ 1 :=
    max_le (by norm_num) ha
  simp only [blinkFrameWith, hblink, not_true, false_and, if_false,
    eq_self_iff_true, if_true]
  by_cases hend : bs.blinkStartTime + bs.blinkDuration ≤ now
  · -- at or past the deadline: progress clamps to 1, envelope then restore
    have hprog : min ((now - bs.blinkStartTime) / bs.blinkDuration) 1 = 1 :=
      min_eq_right ((one_le_div hdur).mpr (by linarith))
    rw [if_pos hprog.ge]
    refine ⟨?_, fun hlt => absurd hend (not_le.mpr hlt), fun _ => ⟨rfl, ?_⟩⟩
    · intro e he
      simp only [List.map_map, List.mem_map, Function.comp] at he
      obtain ⟨x, hx, rfl⟩ := he
      have hx0 := hrest x hx
      exact ⟨by simpa using by linarith, by simp⟩
    · intro e he
      simp only [List.map_map, List.mem_map, Function.comp] at he
      obtain ⟨x, hx, rfl⟩ := he
      rfl
  · -- strictly inside the window: envelope only, blink continues
    have hlt : now < bs.blinkStartTime + bs.blinkDuration := not_le.mp hend
    have hdivlt : (now - bs.blinkStartTime) / bs.blinkDuration < 1 :=
      (div_lt_one hdur).mpr (by linarith)
    have hproglt : min ((now - bs.blinkStartTime) / bs.blinkDuration) 1 < 1 :=
      lt_of_le_of_lt (min_le_left _ _) hdivlt
    rw [if_neg (not_le.mpr hproglt)]
    refine ⟨?_, fun _ => hblink, fun hge => absurd hge hend⟩
    intro e he
    simp only [List.mem_map] at he
    obtain ⟨x, hx, rfl⟩ := he
    have hx0 := hrest x hx
    constructor
    · simpa using by nlinarith [mul_le_mul_of_nonneg_left hclampLo hx0]
    · simpa using by nlinarith [mul_le_mul_of_nonneg_left hclampHi hx0]

/-- Claim C6: in both `Avatar3D` variants, at every per-frame advance of an
ongoing blink from `blinkStartedAt` on, the eye Y-scale stays within
`[0.1 * restY, restY]` (rest scales nonnegative); at every advance strictly
before `blinkStartedAt + blinkDurationMs` the blink state does not return
to idle; and at the first advance whose time reaches or passes
`blinkStartedAt + blinkDurationMs` — where the clamped progress reaches
1 — the blink state returns to idle and the full rest scale vector (all
three components, not only Y) is restored exactly. -/
theorem blink_envelope_and_restore (now : ℚ) (bs : BlinkState)
    (eyes : List EyeEntry)
    (hblink : bs.isBlinking = true) (hdur : 0 < bs.blinkDuration)
    (hlo : bs.blinkStartTime ≤ now)
    (hrest : ∀ e ∈ eyes, 0 ≤ e.rest.y) :
    ((∀ e ∈ (blinkFrame1 now bs eyes).2,
        1/10 * e.rest.y ≤ e.scale.y ∧ e.scale.y ≤ e.rest.y) ∧
     (now < bs.blinkStartTime + bs.blinkDuration →
        (blinkFrame1 now bs eyes).1.isBlinking = true) ∧
     (bs.blinkStartTime + bs.blinkDuration ≤ now →
        (blinkFrame1 now bs eyes).1.isBlinking = false ∧
        ∀ e ∈ (blinkFrame1 now bs eyes).2, e.scale = e.rest)) ∧
    ((∀ e ∈ (blinkFrame2 now bs eyes).2,
        1/10 * e.rest.y ≤ e.scale.y ∧ e.scale.y ≤ e.rest.y) ∧
     (now < bs.blinkStartTime + bs.blinkDuration →
        (blinkFrame2 now bs eyes).1.isBlinking = true) ∧
     (bs.blinkStartTime + bs.blinkDuration ≤ now →
        (blinkFrame2 now bs eyes).1.isBlinking = false ∧
        ∀ e ∈ (blinkFrame2 now bs eyes).2, e.scale = e.rest)) :=
  ⟨blinkFrameWith_envelope blinkAmount1 blinkAmount1_le_one now bs eyes
     hblink hdur hlo hrest,
   blinkFrameWith_envelope blinkAmount2 blinkAmount2_le_one now bs eyes
     hblink hdur hlo hrest⟩

/-- Witness for C6: a blink that started at 0 with the default 150 ms
duration, advanced at 200 ms (the first frame strictly past the deadline),
on one eye mesh at rest scale (1,1,1): the state returns to idle and the
rest vector is restored. -/
theorem blink_envelope_and_restore_witness :
    ((0 : ℚ) < 150 ∧ (0 : ℚ) ≤ 200 ∧ (0 : ℚ) + 150 ≤ 200) ∧
    ((blinkFrame1 200 ⟨true, 0, 0, 150, 4500⟩
        [⟨⟨1, 1, 1⟩, ⟨1, 1, 1⟩⟩]).1.isBlinking = false ∧
     ∀ e ∈ (blinkFrame1 200 ⟨true, 0, 0, 150, 4500⟩
        [⟨⟨1, 1, 1⟩, ⟨1, 1, 1⟩⟩]).2, e.scale = e.rest) :=
  ⟨⟨by norm_num, by norm_num, by norm_num⟩,
   (blink_envelope_and_restore 200 ⟨true, 0, 0, 150, 4500⟩
      [⟨⟨1, 1, 1⟩, ⟨1, 1, 1⟩⟩] rfl (by norm_num) (by norm_num)
      (by intro e he; fin_cases he; norm_num)).1.2.2 (by norm_num)⟩

theorem heuristicEyesAux_sound (meshes : List Mesh) (acc : List Mesh) :
    (∀ m ∈ heuristicEyesAux acc meshes, m ∈ acc ∨ isCandidateEye m) ∧
    (acc.length ≤ 10 → (heuristicEyesAux acc meshes).length ≤ 10) := by
  induction meshes generalizing acc with
  | nil => exact ⟨fun m hm => Or.inl hm, fun h => h⟩
  | cons x xs ih =>
    by_cases hx : isCandidateEye x ∧ acc.length < 10
    · rw [show heuristicEyesAux acc (x :: xs) = heuristicEyesAux (acc ++ [x]) xs by
        simp [heuristicEyesAux, if_pos hx]]
      refine ⟨fun m hm => ?_, fun _ => ?_⟩
      · rcases (ih (acc ++ [x])).1 m hm with h | h
        · rcases List.mem_append.mp h with h | h
          · exact Or.inl h
          · rw [List.mem_singleton.mp h]
            exact Or.inr hx.1
        · exact Or.inr h
      · refine (ih (acc ++ [x])).2 ?_
        have := hx.2
        simp only [List.length_append, List.length_singleton]
        omega
    · rw [show heuristicEyesAux acc (x :: xs) = heuristicEyesAux acc xs by
        simp [heuristicEyesAux, if_neg hx]]
      exact ih acc

/-- Claim C7: the heuristic fallback's result is used if and only if zero
eye meshes matched by name; every mesh it accepts passes the geometry
guard, has squared bounding-box diagonal below 0.25 (diagonal below 0.5)
and a world position with positive Y and |X| below 1; and it accepts at
most 10 candidates. -/
theorem heuristic_fallback_gating (meshes : List Mesh) :
    (nameMatchedEyes meshes = [] → findEyes meshes = heuristicEyes meshes) ∧
    (nameMatchedEyes meshes ≠ [] → findEyes meshes = nameMatchedEyes meshes) ∧
    (∀ m ∈ heuristicEyes meshes, isCandidateEye m) ∧
    (heuristicEyes meshes).length ≤ 10 := by
  refine ⟨fun h => ?_, fun h => ?_, fun m hm => ?_, ?_⟩
  · simp [findEyes, h]
  · simp [findEyes, List.length_eq_zero, h]
  · rcases (heuristicEyesAux_sound meshes []).1 m hm with h | h
    · exact absurd h (List.not_mem_nil m)
    · exact h
  · exact (heuristicEyesAux_sound meshes []).2 (by norm_num)

/-- Witness for C7: a single mesh named `Eye_L` matches by name, so the
heuristic result is not used; on a mesh list with no name matches and one
tiny centered mesh, the heuristic output obeys the bound. -/
theorem heuristic_fallback_gating_witness :
    (nameMatchedEyes [⟨"Eye_L", true, true, ⟨1, 1, 1⟩, ⟨0, 1, 0⟩, ⟨1, 1, 1⟩⟩] ≠ [] ∧
     findEyes [⟨"Eye_L", true, true, ⟨1, 1, 1⟩, ⟨0, 1, 0⟩, ⟨1, 1, 1⟩⟩] =
       nameMatchedEyes [⟨"Eye_L", true, true, ⟨1, 1, 1⟩, ⟨0, 1, 0⟩, ⟨1, 1, 1⟩⟩]) ∧
    (heuristicEyes [⟨"Torso", true, true, ⟨1, 1, 1⟩, ⟨0, 1, 0⟩, ⟨1, 1, 1⟩⟩]).length ≤ 10 :=
  ⟨⟨by decide,
    (heuristic_fallback_gating
       [⟨"Eye_L", true, true, ⟨1, 1, 1⟩, ⟨0, 1, 0⟩, ⟨1, 1, 1⟩⟩]).2.1 (by decide)⟩,
   (heuristic_fallback_gating
      [⟨"Torso", true, true, ⟨1, 1, 1⟩, ⟨0, 1, 0⟩, ⟨1, 1, 1⟩⟩]).2.2.2⟩

/-- Claim C8 fails on the code: with two qualifying meshes `Mouth_A` then
`Jaw_B` in traversal order, the recorded mouth mesh is `Jaw_B`, the LAST
qualifying mesh, with its scale — not the first.  The `if (!mouthMesh)`
guard reads the React state captured by the effect closure, which stays
null during the whole synchronous traversal, so every qualifying mesh
calls `setMouthMesh` and the final queued update wins. -/
theorem mouth_classification_keeps_last :
    classifyMouthRun none
      [⟨"Mouth_A", true, true, ⟨1, 1, 1⟩, ⟨0, 1, 0⟩, ⟨1, 1, 1⟩⟩,
       ⟨"Jaw_B", true, true, ⟨1, 1, 1⟩, ⟨0, 1, 0⟩, ⟨2, 2, 2⟩⟩] =
      some (⟨"Jaw_B", true, true, ⟨1, 1, 1⟩, ⟨0, 1, 0⟩, ⟨2, 2, 2⟩⟩, ⟨2, 2, 2⟩) ∧
    ("Jaw_B" : String) ≠ "Mouth_A" := by
  refine ⟨rfl, by decide⟩

end Yumiai
